import Mathlib

/-
Verification of the PingPong web chat backend (backend/db.py and
backend/main.py) against its natural-language specification.

The SQLite tables are modelled as Lean lists of records, each db.py helper
as a pure function on those lists (exceptions become `Except`), and the
relay loop body of `chat_ws` as a function from one inbound frame and the
current state to the list of emitted events plus the updated message table.
-/

deriving instance DecidableEq for Except

namespace WebChat

/-- Status column of the friend_requests table: one of pending, accepted,
rejected (CHECK constraint in init_db). -/
inductive Status where
  | pending
  | accepted
  | rejected
deriving DecidableEq, Repr

/-- Kind column of the messages table: text or file (CHECK constraint in
init_db). -/
inductive Kind where
  | text
  | file
deriving DecidableEq, Repr

/-- Row of the users table: id plus unique username. -/
structure User where
  id : Nat
  username : String
deriving DecidableEq, Repr

/-- Row of the friend_requests table. Timestamps are modelled as Nat;
respondedAt is NULL (none) until the request is resolved. -/
structure FriendRequest where
  id : Nat
  fromUser : Nat
  toUser : Nat
  status : Status
  respondedAt : Option Nat
deriving DecidableEq, Repr

/-- Row of the messages table. -/
structure Message where
  id : Nat
  fromUser : Nat
  toUser : Nat
  kind : Kind
  text : String
  url : Option String
  createdAt : Nat
deriving DecidableEq, Repr

/-- db.get_user_by_username: SELECT on users by username (usernames are
UNIQUE, so the first match is the match). -/
def get_user_by_username (users : List User) (name : String) : Option User :=
  users.find? (fun u => u.username == name)

/-- The unordered-pair condition used by the friend_requests queries:
the row r connects identities a and b, in either direction. -/
def samePair (r : FriendRequest) (a b : Nat) : Prop :=
  (r.fromUser = a ∧ r.toUser = b) ∨ (r.fromUser = b ∧ r.toUser = a)

instance (r : FriendRequest) (a b : Nat) : Decidable (samePair r a b) := by
  unfold samePair; infer_instance

/-- db.are_friends: a friend_requests row with status accepted exists
between the two ids, in either direction. -/
def are_friends (reqs : List FriendRequest) (a b : Nat) : Bool :=
  reqs.any (fun r => decide (r.status = Status.accepted ∧ samePair r a b))

/-- AUTOINCREMENT id for a new friend_requests row. -/
def nextReqId (reqs : List FriendRequest) : Nat :=
  reqs.foldr (fun r acc => max r.id acc) 0 + 1

/-- AUTOINCREMENT id for a new messages row. -/
def nextMsgId (msgs : List Message) : Nat :=
  msgs.foldr (fun m acc => max m.id acc) 0 + 1

/-- The ValueError cases raised by db.create_friend_request. The three
AlreadyRelated messages (already friends / already pending / already
exists) are distinguished by the status of the existing row. -/
inductive CreateErr where
  | targetNotFound
  | selfTarget
  | alreadyRelated (existing : Status)
deriving DecidableEq, Repr

/-- db.create_friend_request: resolve the target by username, reject self,
reject when any row exists for the unordered pair in either direction
(fetchone on the two-sided WHERE clause), otherwise insert a pending row.
Returns the updated friend_requests table. -/
def create_friend_request (users : List User) (reqs : List FriendRequest)
    (fromUserId : Nat) (toUsername : String) :
    Except CreateErr (List FriendRequest) :=
  match get_user_by_username users toUsername with
  | none => .error .targetNotFound
  | some target =>
    if target.id = fromUserId then .error .selfTarget
    else
      match reqs.find? (fun r => decide (samePair r fromUserId target.id)) with
      | some row => .error (.alreadyRelated row.status)
      | none =>
        .ok (reqs ++ [⟨nextReqId reqs, fromUserId, target.id, .pending, none⟩])

/-- The ValueError cases raised by db.respond_to_friend_request. -/
inductive RespondErr where
  | notFound
  | forbidden
  | invalidState
deriving DecidableEq, Repr

/-- The UPDATE applied by db.respond_to_friend_request to the row with the
given id: set status from accept and stamp responded_at. -/
def applyRespond (requestId : Nat) (accept : Bool) (now : Nat)
    (q : FriendRequest) : FriendRequest :=
  if q.id = requestId then
    { q with status := if accept then .accepted else .rejected,
             respondedAt := some now }
  else q

/-- db.respond_to_friend_request: load the row by id (NotFound), check the
responder is the target (Forbidden), check the row is pending
(InvalidState), then UPDATE status and responded_at. Returns the updated
friend_requests table. -/
def respond_to_friend_request (reqs : List FriendRequest) (requestId : Nat)
    (toUserId : Nat) (accept : Bool) (now : Nat) :
    Except RespondErr (List FriendRequest) :=
  match reqs.find? (fun q => q.id == requestId) with
  | none => .error .notFound
  | some row =>
    if row.toUser ≠ toUserId then .error .forbidden
    else if row.status ≠ Status.pending then .error .invalidState
    else .ok (reqs.map (applyRespond requestId accept now))

/-!  The connection registry: main.py's module-level dict
`active_connections : Dict[str, WebSocket]`, modelled as a function from
username to optional connection handle (connections as Nat).  -/

/-- The process-wide presence map of main.py. -/
def Registry : Type := String → Option Nat

/-- main.py line 346: `active_connections[username] = websocket` — an
unconditional dict upsert. -/
def register (r : Registry) (name : String) (conn : Nat) : Registry :=
  fun k => if k = name then some conn else r k

/-- main.py lines 397-398: pop the entry only when it is still the given
connection (`if active_connections.get(username) is websocket`). -/
def unregister (r : Registry) (name : String) (conn : Nat) : Registry :=
  if r name = some conn then (fun k => if k = name then none else r k) else r

/-- main.py `active_connections.get(name)`: presence lookup. -/
def rlookup (r : Registry) (name : String) : Option Nat := r name

/-- C8: register is an unconditional upsert and unregister is conditional:
after registering c1 then c2 under the same name, lookup returns c2; a
stale unregister presenting c1 is a no-op; unregister presenting the
current connection removes the entry; and register(n,c1); register(n,c2);
unregister(n,c1) is equivalent to register(n,c2).  (The registry is a
map keyed by name, so at most one entry per identity name is structural.) -/
theorem c8_registry_semantics (r : Registry) (n : String) (c1 c2 : Nat)
    (h : c1 ≠ c2) :
    rlookup (register (register r n c1) n c2) n = some c2
    ∧ unregister (register (register r n c1) n c2) n c1
        = register (register r n c1) n c2
    ∧ rlookup (unregister (register (register r n c1) n c2) n c2) n = none
    ∧ unregister (register (register r n c1) n c2) n c1 = register r n c2 := by
  have hlook : rlookup (register (register r n c1) n c2) n = some c2 := by
    simp [rlookup, register]
  have hne : (register (register r n c1) n c2) n ≠ some c1 := by
    simp only [register, if_pos rfl]
    intro hc
    exact h (Option.some.injEq .. ▸ hc).symm
  have hstale : unregister (register (register r n c1) n c2) n c1
      = register (register r n c1) n c2 := by
    unfold unregister
    rw [if_neg hne]
  refine ⟨hlook, hstale, ?_, ?_⟩
  · have hcur : (register (register r n c1) n c2) n = some c2 := by
      simp [register]
    unfold unregister
    rw [if_pos hcur]
    simp [rlookup]
  · rw [hstale]
    funext k
    by_cases hk : k = n <;> simp [register, hk]

/-- Witness for c8_registry_semantics at a concrete registry and pair of
distinct connections. -/
theorem c8_registry_semantics_witness :
    rlookup (register (register (fun _ => none) "alice" 1) "alice" 2) "alice"
        = some 2
    ∧ unregister (register (register (fun _ => none) "alice" 1) "alice" 2)
        "alice" 1
        = register (register (fun _ => none) "alice" 1) "alice" 2
    ∧ rlookup (unregister
        (register (register (fun _ => none) "alice" 1) "alice" 2) "alice" 2)
        "alice" = none
    ∧ unregister (register (register (fun _ => none) "alice" 1) "alice" 2)
        "alice" 1 = register (fun _ => none) "alice" 2 :=
  c8_registry_semantics (fun _ => none) "alice" 1 2 (by decide)

/-!  db.get_conversation: the SQL is
ORDER BY m.created_at ASC, m.id ASC LIMIT ?, applied to the rows between
the two users in either direction.  Modelled as a stable insertion sort on
the lexicographic key (created_at, id) followed by List.take.  -/

/-- The ORDER BY key of get_conversation: created_at ascending, id
ascending as tie-break. -/
def msgLe (a b : Message) : Bool :=
  decide (a.createdAt < b.createdAt
    ∨ (a.createdAt = b.createdAt ∧ a.id ≤ b.id))

/-- Insert a message into a list sorted by msgLe. -/
def insertMsg (m : Message) : List Message → List Message
  | [] => [m]
  | x :: xs => if msgLe m x then m :: x :: xs else x :: insertMsg m xs

/-- Sort messages by msgLe (insertion sort). -/
def sortMsgs : List Message → List Message
  | [] => []
  | x :: xs => insertMsg x (sortMsgs xs)

/-- The WHERE clause of get_conversation: the message is between the two
user ids, in either direction. -/
def betweenUsers (u1 u2 : Nat) (m : Message) : Bool :=
  decide ((m.fromUser = u1 ∧ m.toUser = u2) ∨ (m.fromUser = u2 ∧ m.toUser = u1))

/-- db.get_conversation: filter the messages table to the pair, ORDER BY
created_at ASC, id ASC, then LIMIT. Because LIMIT is applied to the
ascending order, the FIRST (oldest) rows are kept. -/
def get_conversation (msgs : List Message) (u1 u2 : Nat) (limit : Nat) :
    List Message :=
  (sortMsgs (msgs.filter (betweenUsers u1 u2))).take limit

/-- An older and a newer message between users 1 and 2, exercising the
LIMIT of get_conversation. -/
def oldMsg : Message := ⟨1, 1, 2, .text, "old", none, 0⟩

/-- The newer of the two messages between users 1 and 2. -/
def newMsg : Message := ⟨2, 1, 2, .text, "new", none, 7⟩

/-- C1: evaluation at the failing input.  With two eligible messages and
limit 1, get_conversation returns the OLDEST message, while the claim (and
the docstring of get_conversation in db.py, which reads: return the most
recent messages) requires the most recent one.  ORDER BY ASC followed by
LIMIT keeps the head of the ascending order, i.e. the oldest rows. -/
theorem c1_get_conversation_keeps_oldest :
    get_conversation [oldMsg, newMsg] 1 2 1 = [oldMsg]
    ∧ oldMsg.createdAt < newMsg.createdAt
    ∧ get_conversation [oldMsg, newMsg] 1 2 1 ≠ [newMsg] := by
  have h1 : get_conversation [oldMsg, newMsg] 1 2 1 = [oldMsg] := rfl
  refine ⟨h1, by decide, ?_⟩
  rw [h1]
  decide

/-!  main.py upload_file: the filename normalisation (os.path.basename,
default "file.bin", truncation to the last 100 characters) and the
persisted message / WebSocket notification it produces.  -/

/-- Python's `x or default` on an optional string: the default is used
when the value is missing or empty. -/
def pyOr (x : Option String) (dflt : String) : String :=
  match x with
  | none => dflt
  | some s => if s = "" then dflt else s

/-- Python str.strip default whitespace set, restricted to ASCII. -/
def isSpaceChar (c : Char) : Bool :=
  c = ' ' || c = '\t' || c = '\n' || c = '\r' || c = '\x0b' || c = '\x0c'

/-- Python str.strip(): surrounding whitespace removed from both ends. -/
def pyStrip (s : String) : String :=
  ((s.toList.dropWhile isSpaceChar).reverse.dropWhile isSpaceChar).reverse.asString

/-- The characters after the last slash, by a left fold. -/
def basenameChars : List Char → List Char :=
  List.foldl (fun acc c => if c = '/' then [] else acc ++ [c]) []

/-- os.path.basename: the part after the last slash. -/
def pyBasename (s : String) : String :=
  (basenameChars s.toList).asString

/-- Python negative-index slice name[-(n):]: the last n characters. -/
def lastChars (n : Nat) (s : String) : String :=
  (s.toList.drop (s.length - n)).asString

/-- main.py lines 265-267: original_name = basename(filename or
"file.bin"), truncated to its last 100 characters when longer. -/
def uploadName (filename : Option String) : String :=
  let original := pyBasename (pyOr filename "file.bin")
  if original.length > 100 then lastChars 100 original else original

/-- The ws_payload dict built by upload_file (the url is also stored). -/
structure FilePayload where
  fromName : String
  filename : String
  url : String
deriving DecidableEq, Repr

/-- The HTTPException cases of upload_file. -/
inductive UploadErr where
  | targetNotFound
  | notFriends
deriving DecidableEq, Repr

/-- main.py upload_file after authentication: resolve the target, check
friendship, save a file message whose text is the normalised filename, and
build the notification payload sent to recipient and sender. uniqueHex
stands for the uuid4 hex prefix of the stored name. -/
def upload_file (users : List User) (reqs : List FriendRequest)
    (msgs : List Message) (meId : Nat) (meName : String) (toUsername : String)
    (filename : Option String) (uniqueHex : String) (now : Nat) :
    Except UploadErr (List Message × FilePayload) :=
  match get_user_by_username users (pyStrip toUsername) with
  | none => .error .targetNotFound
  | some target =>
    if are_friends reqs meId target.id then
      let original := uploadName filename
      let urlPath := "/files/" ++ uniqueHex ++ "_" ++ original
      let m : Message := ⟨nextMsgId msgs, meId, target.id, .file, original,
        some urlPath, now⟩
      .ok (msgs ++ [m], ⟨meName, original, urlPath⟩)
    else .error .notFriends

/-- Length of an asString is the length of the char list. -/
theorem length_asString (l : List Char) : l.asString.length = l.length := rfl

/-- The normalised upload filename never exceeds 100 characters. -/
theorem uploadName_length_le (filename : Option String) :
    (uploadName filename).length ≤ 100 := by
  unfold uploadName
  set original := pyBasename (pyOr filename "file.bin") with horig
  by_cases h : original.length > 100
  · rw [if_pos h]
    unfold lastChars
    rw [length_asString, List.length_drop]
    have : original.toList.length = original.length := rfl
    omega
  · rw [if_neg h]
    omega

/-- C10: for every successful upload, the persisted message body and the
notification filename both equal the basename of the original name,
truncated to its last 100 characters when longer, defaulting to file.bin
when the upload carries no filename; the stored name never exceeds 100
characters. -/
theorem c10_upload_filename (users : List User) (reqs : List FriendRequest)
    (msgs : List Message) (meId : Nat) (meName : String) (toUsername : String)
    (filename : Option String) (uniqueHex : String) (now : Nat)
    (msgs2 : List Message) (payload : FilePayload)
    (h : upload_file users reqs msgs meId meName toUsername filename
        uniqueHex now = .ok (msgs2, payload)) :
    (∃ m : Message, msgs2 = msgs ++ [m] ∧ m.kind = Kind.file
      ∧ m.text = uploadName filename ∧ m.text = payload.filename)
    ∧ payload.filename = uploadName filename
    ∧ payload.filename.length ≤ 100
    ∧ (filename = none → payload.filename = pyBasename "file.bin")
    ∧ ((pyBasename (pyOr filename "file.bin")).length > 100 →
        payload.filename
          = lastChars 100 (pyBasename (pyOr filename "file.bin"))) := by
  unfold upload_file at h
  cases hu : get_user_by_username users (pyStrip toUsername) with
  | none => rw [hu] at h; exact absurd h (by simp)
  | some target =>
    rw [hu] at h
    dsimp only at h
    by_cases hf : are_friends reqs meId target.id
    · simp only [hf, if_true, Except.ok.injEq, Prod.mk.injEq] at h
      obtain ⟨hm, hp⟩ := h
      subst hm hp
      refine ⟨⟨_, rfl, rfl, rfl, rfl⟩, rfl, uploadName_length_le filename,
        ?_, ?_⟩
      · intro hnone
        subst hnone
        show uploadName none = pyBasename "file.bin"
        unfold uploadName
        rw [if_neg]
        · rfl
        · decide
      · intro hlong
        show uploadName filename = _
        unfold uploadName
        rw [if_pos hlong]
    · simp [hf] at h

/-- Witness for c10_upload_filename: alice uploads a file with a long
slash-qualified name to her friend bob. -/
theorem c10_upload_filename_witness :
    (∃ m : Message,
        [(⟨1, 1, 2, Kind.file, "abcdefghij",
          some "/files/u0_abcdefghij", 3⟩ : Message)]
          = ([] : List Message) ++ [m]
      ∧ m.kind = Kind.file
      ∧ m.text = uploadName (some "dir/abcdefghij")
      ∧ m.text = (FilePayload.mk "alice" "abcdefghij"
          "/files/u0_abcdefghij").filename)
    ∧ (FilePayload.mk "alice" "abcdefghij" "/files/u0_abcdefghij").filename
        = uploadName (some "dir/abcdefghij")
    ∧ (FilePayload.mk "alice" "abcdefghij"
        "/files/u0_abcdefghij").filename.length ≤ 100
    ∧ (some "dir/abcdefghij" = none →
        (FilePayload.mk "alice" "abcdefghij"
          "/files/u0_abcdefghij").filename = pyBasename "file.bin")
    ∧ ((pyBasename (pyOr (some "dir/abcdefghij") "file.bin")).length > 100 →
        (FilePayload.mk "alice" "abcdefghij"
          "/files/u0_abcdefghij").filename
          = lastChars 100 (pyBasename (pyOr (some "dir/abcdefghij")
              "file.bin"))) :=
  c10_upload_filename
    [⟨1, "alice"⟩, ⟨2, "bob"⟩] [⟨1, 1, 2, Status.accepted, some 0⟩]
    [] 1 "alice" "bob" (some "dir/abcdefghij") "u0" 3
    [⟨1, 1, 2, Kind.file, "abcdefghij", some "/files/u0_abcdefghij", 3⟩]
    ⟨"alice", "abcdefghij", "/files/u0_abcdefghij"⟩ (by decide)

/-!  The relay loop body of chat_ws (main.py lines 352-392): one inbound
frame is processed to completion, emitting system notices, chat frames and
at most one Message-Log append.  -/

/-- One inbound JSON frame: the type, to and text fields, each possibly
missing (data.get returns None on absence). -/
structure InFrame where
  ftype : Option String
  toF : Option String
  textF : Option String
deriving DecidableEq, Repr

/-- Content of a system notice sent by the relay loop; constructors carry
the username the source message interpolates. -/
inductive Notice where
  | unsupportedType
  | fieldsRequired
  | userDoesNotExist (name : String)
  | notFriends (name : String)
  | userOffline (name : String)
deriving DecidableEq, Repr

/-- Observable effect of one loop iteration, in order of emission. -/
inductive Event where
  | systemNotice (conn : Nat) (notice : Notice)
  | chatFrame (conn : Nat) (fromName : String) (text : String)
  | appendMsg (m : Message)
deriving DecidableEq, Repr

/-- Result of one loop iteration: the emitted events in order, the updated
messages table, and whether the iteration aborted because db.save_message
raised (the exception then propagates and tears the loop down). -/
structure StepOut where
  events : List Event
  messages : List Message
  aborted : Bool
deriving DecidableEq, Repr

/-- main.py lines 352-392, one iteration of the chat_ws loop: check the
type field, strip and check the to and text fields, resolve the recipient,
check friendship, then either (recipient offline) send the offline notice
and store the message, or (recipient online) store the message and deliver
the chat frame to the recipient followed by the echo to the sender.
appendOk models whether db.save_message succeeds; when false the INSERT
raises before storing anything. -/
def chatStep (users : List User) (reqs : List FriendRequest)
    (msgs : List Message) (registry : Registry) (meId : Nat) (meName : String)
    (meConn : Nat) (frame : InFrame) (now : Nat) (appendOk : Bool) :
    StepOut :=
  if frame.ftype ≠ some "chat" then
    ⟨[.systemNotice meConn .unsupportedType], msgs, false⟩
  else if pyStrip (frame.toF.getD "") = "" ∨ pyStrip (frame.textF.getD "") = "" then
    ⟨[.systemNotice meConn .fieldsRequired], msgs, false⟩
  else
    match get_user_by_username users (pyStrip (frame.toF.getD "")) with
    | none =>
      ⟨[.systemNotice meConn (.userDoesNotExist (pyStrip (frame.toF.getD "")))],
        msgs, false⟩
    | some target =>
      if are_friends reqs meId target.id then
        match registry (pyStrip (frame.toF.getD "")) with
        | none =>
          if appendOk then
            ⟨[.systemNotice meConn (.userOffline (pyStrip (frame.toF.getD ""))),
              .appendMsg ⟨nextMsgId msgs, meId, target.id, .text,
                pyStrip (frame.textF.getD ""), none, now⟩],
              msgs ++ [⟨nextMsgId msgs, meId, target.id, .text,
                pyStrip (frame.textF.getD ""), none, now⟩], false⟩
          else
            ⟨[.systemNotice meConn (.userOffline (pyStrip (frame.toF.getD "")))],
              msgs, true⟩
        | some targetConn =>
          if appendOk then
            ⟨[.appendMsg ⟨nextMsgId msgs, meId, target.id, .text,
                pyStrip (frame.textF.getD ""), none, now⟩,
              .chatFrame targetConn meName (pyStrip (frame.textF.getD "")),
              .chatFrame meConn meName (pyStrip (frame.textF.getD ""))],
              msgs ++ [⟨nextMsgId msgs, meId, target.id, .text,
                pyStrip (frame.textF.getD ""), none, now⟩], false⟩
          else
            ⟨[], msgs, true⟩
      else
        ⟨[.systemNotice meConn (.notFriends (pyStrip (frame.toF.getD "")))],
          msgs, false⟩

/-- The frame-level rejection conditions of the relay loop: wrong type,
empty trimmed to or text, unknown recipient, or recipient not a friend. -/
def frameRejected (users : List User) (reqs : List FriendRequest)
    (meId : Nat) (frame : InFrame) : Prop :=
  frame.ftype ≠ some "chat"
  ∨ pyStrip (frame.toF.getD "") = ""
  ∨ pyStrip (frame.textF.getD "") = ""
  ∨ get_user_by_username users (pyStrip (frame.toF.getD "")) = none
  ∨ (∃ target : User,
      get_user_by_username users (pyStrip (frame.toF.getD "")) = some target
      ∧ are_friends reqs meId target.id = false)

/-- C6: every frame rejected at frame level produces exactly one system
notice to the sender, persists no Message, delivers no chat frame to
anyone, and leaves the loop running (no abort, no close). -/
theorem c6_rejected_frames_degrade_to_notice (users : List User)
    (reqs : List FriendRequest) (msgs : List Message) (registry : Registry)
    (meId : Nat) (meName : String) (meConn : Nat) (frame : InFrame)
    (now : Nat) (appendOk : Bool)
    (h : frameRejected users reqs meId frame) :
    (∃ n : Notice,
      (chatStep users reqs msgs registry meId meName meConn frame now
        appendOk).events = [Event.systemNotice meConn n])
    ∧ (chatStep users reqs msgs registry meId meName meConn frame now
        appendOk).messages = msgs
    ∧ (chatStep users reqs msgs registry meId meName meConn frame now
        appendOk).aborted = false := by
  by_cases h1 : frame.ftype = some "chat"
  case neg =>
    have he : chatStep users reqs msgs registry meId meName meConn frame now
        appendOk = ⟨[Event.systemNotice meConn Notice.unsupportedType],
          msgs, false⟩ := by
      simp [chatStep, h1]
    rw [he]
    exact ⟨⟨_, rfl⟩, rfl, rfl⟩
  case pos =>
  by_cases h2 : pyStrip (frame.toF.getD "") = "" ∨ pyStrip (frame.textF.getD "") = ""
  case pos =>
    have he : chatStep users reqs msgs registry meId meName meConn frame now
        appendOk = ⟨[Event.systemNotice meConn Notice.fieldsRequired],
          msgs, false⟩ := by
      simp [chatStep, h1, h2]
    rw [he]
    exact ⟨⟨_, rfl⟩, rfl, rfl⟩
  case neg =>
  cases hu : get_user_by_username users (pyStrip (frame.toF.getD "")) with
  | none =>
    have he : chatStep users reqs msgs registry meId meName meConn frame now
        appendOk = ⟨[Event.systemNotice meConn
          (Notice.userDoesNotExist (pyStrip (frame.toF.getD "")))],
          msgs, false⟩ := by
      simp [chatStep, h1, h2, hu]
    rw [he]
    exact ⟨⟨_, rfl⟩, rfl, rfl⟩
  | some target =>
    by_cases hf : are_friends reqs meId target.id
    case pos =>
      exfalso
      rcases h with h | h | h | h | ⟨t, ht, hft⟩
      · exact h h1
      · exact h2 (Or.inl h)
      · exact h2 (Or.inr h)
      · rw [hu] at h; exact Option.noConfusion h
      · rw [hu] at ht
        cases ht
        rw [hf] at hft
        exact Bool.noConfusion hft
    case neg =>
      have he : chatStep users reqs msgs registry meId meName meConn frame now
          appendOk = ⟨[Event.systemNotice meConn
            (Notice.notFriends (pyStrip (frame.toF.getD "")))],
            msgs, false⟩ := by
        simp [chatStep, h1, h2, hu, hf]
      rw [he]
      exact ⟨⟨_, rfl⟩, rfl, rfl⟩

/-- Witness for c6_rejected_frames_degrade_to_notice: a frame whose type
field is not chat. -/
theorem c6_rejected_frames_degrade_to_notice_witness :
    (∃ n : Notice,
      (chatStep [] [] [] (fun _ => none) 1 "alice" 10
        ⟨some "ping", none, none⟩ 0 true).events
        = [Event.systemNotice 10 n])
    ∧ (chatStep [] [] [] (fun _ => none) 1 "alice" 10
        ⟨some "ping", none, none⟩ 0 true).messages = []
    ∧ (chatStep [] [] [] (fun _ => none) 1 "alice" 10
        ⟨some "ping", none, none⟩ 0 true).aborted = false :=
  c6_rejected_frames_degrade_to_notice [] [] [] (fun _ => none) 1 "alice" 10
    ⟨some "ping", none, none⟩ 0 true (Or.inl (by decide))

/-- C7: a chat frame accepted with the recipient online persists exactly
one Message and emits exactly two frames: the chat frame to the
recipient's connection and the identical echo to the sender's connection,
in that order, both carrying the sender name and the stored text. -/
theorem c7_online_delivery (users : List User) (reqs : List FriendRequest)
    (msgs : List Message) (registry : Registry) (meId : Nat) (meName : String)
    (meConn : Nat) (frame : InFrame) (now : Nat) (target : User)
    (targetConn : Nat)
    (h1 : frame.ftype = some "chat")
    (h2 : pyStrip (frame.toF.getD "") ≠ "")
    (h3 : pyStrip (frame.textF.getD "") ≠ "")
    (h4 : get_user_by_username users (pyStrip (frame.toF.getD ""))
        = some target)
    (h5 : are_friends reqs meId target.id = true)
    (h6 : registry (pyStrip (frame.toF.getD "")) = some targetConn) :
    ∃ m : Message,
      (chatStep users reqs msgs registry meId meName meConn frame now
          true).events
        = [Event.appendMsg m, Event.chatFrame targetConn meName m.text,
           Event.chatFrame meConn meName m.text]
      ∧ (chatStep users reqs msgs registry meId meName meConn frame now
          true).messages = msgs ++ [m]
      ∧ (chatStep users reqs msgs registry meId meName meConn frame now
          true).aborted = false
      ∧ m.kind = Kind.text ∧ m.fromUser = meId ∧ m.toUser = target.id
      ∧ m.text = pyStrip (frame.textF.getD "") := by
  have h23 : ¬(pyStrip (frame.toF.getD "") = ""
      ∨ pyStrip (frame.textF.getD "") = "") := not_or.mpr ⟨h2, h3⟩
  have he : chatStep users reqs msgs registry meId meName meConn frame now
      true = ⟨[Event.appendMsg ⟨nextMsgId msgs, meId, target.id, .text,
          pyStrip (frame.textF.getD ""), none, now⟩,
        Event.chatFrame targetConn meName (pyStrip (frame.textF.getD "")),
        Event.chatFrame meConn meName (pyStrip (frame.textF.getD ""))],
        msgs ++ [⟨nextMsgId msgs, meId, target.id, .text,
          pyStrip (frame.textF.getD ""), none, now⟩], false⟩ := by
    simp [chatStep, h1, h23, h4, h5, h6]
  rw [he]
  exact ⟨⟨nextMsgId msgs, meId, target.id, .text,
    pyStrip (frame.textF.getD ""), none, now⟩, rfl, rfl, rfl, rfl, rfl, rfl,
    rfl⟩

/-- Concrete users for the relay scenarios: alice (id 1) and bob (id 2). -/
def usersW : List User := [⟨1, "alice"⟩, ⟨2, "bob"⟩]

/-- Concrete friendship: the accepted request from alice to bob. -/
def reqsW : List FriendRequest := [⟨1, 1, 2, .accepted, some 5⟩]

/-- Concrete registry with only alice online (connection 10). -/
def regAliceOnly : Registry := fun n => if n = "alice" then some 10 else none

/-- Concrete registry with alice (connection 10) and bob (connection 20)
online. -/
def regBoth : Registry :=
  fun n => if n = "alice" then some 10 else if n = "bob" then some 20 else none

/-- Concrete well-formed chat frame from alice to bob. -/
def frameW : InFrame := ⟨some "chat", some "bob", some "hi"⟩

/-- Witness for c7_online_delivery: alice messages bob while bob is
online. -/
theorem c7_online_delivery_witness :
    ∃ m : Message,
      (chatStep usersW reqsW [] regBoth 1 "alice" 10 frameW 7 true).events
        = [Event.appendMsg m, Event.chatFrame 20 "alice" m.text,
           Event.chatFrame 10 "alice" m.text]
      ∧ (chatStep usersW reqsW [] regBoth 1 "alice" 10 frameW 7
          true).messages = [] ++ [m]
      ∧ (chatStep usersW reqsW [] regBoth 1 "alice" 10 frameW 7
          true).aborted = false
      ∧ m.kind = Kind.text ∧ m.fromUser = 1
      ∧ m.toUser = (User.mk 2 "bob").id
      ∧ m.text = pyStrip (frameW.textF.getD "") :=
  c7_online_delivery usersW reqsW [] regBoth 1 "alice" 10 frameW 7
    ⟨2, "bob"⟩ 20 (by decide) (by decide) (by decide) (by decide) (by decide)
    (by decide)

/-- Whether the first emitted event of an iteration is the Message-Log
append (store-before-send). -/
def appendFirst (evs : List Event) : Bool :=
  match evs with
  | Event.appendMsg _ :: _ => true
  | _ => false

/-- C2, counterexample: alice sends a valid chat frame to her friend bob
while bob is offline; the relay emits the offline system notice BEFORE the
Message-Log append, so the append does not precede the frames emitted for
this message as the claim requires. -/
theorem c2_counterexample_offline_notice_first :
    appendFirst (chatStep usersW reqsW [] regAliceOnly 1 "alice" 10 frameW 7
        true).events = false
    ∧ (chatStep usersW reqsW [] regAliceOnly 1 "alice" 10 frameW 7
        true).events
      = [Event.systemNotice 10 (Notice.userOffline "bob"),
         Event.appendMsg ⟨1, 1, 2, Kind.text, "hi", none, 7⟩]
    ∧ (chatStep usersW reqsW [] regAliceOnly 1 "alice" 10 frameW 7
        true).messages = [⟨1, 1, 2, Kind.text, "hi", none, 7⟩] := by
  refine ⟨by rfl, by rfl, by rfl⟩

/-- C2, amended: for every accepted chat frame, exactly one Message is
persisted; when the recipient is online the append precedes both delivery
frames; when the recipient is offline the offline notice is emitted first
and the single append follows it; and if the append raises, the messages
table is unchanged and no chat frame is delivered to anyone. -/
theorem c2_store_exactly_once (users : List User) (reqs : List FriendRequest)
    (msgs : List Message) (registry : Registry) (meId : Nat) (meName : String)
    (meConn : Nat) (frame : InFrame) (now : Nat) (appendOk : Bool)
    (target : User)
    (h1 : frame.ftype = some "chat")
    (h2 : pyStrip (frame.toF.getD "") ≠ "")
    (h3 : pyStrip (frame.textF.getD "") ≠ "")
    (h4 : get_user_by_username users (pyStrip (frame.toF.getD ""))
        = some target)
    (h5 : are_friends reqs meId target.id = true) :
    (appendOk = true → ∃ m : Message,
      (chatStep users reqs msgs registry meId meName meConn frame now
          appendOk).messages = msgs ++ [m]
      ∧ ((∃ c, registry (pyStrip (frame.toF.getD "")) = some c) →
          appendFirst (chatStep users reqs msgs registry meId meName meConn
            frame now appendOk).events = true)
      ∧ (registry (pyStrip (frame.toF.getD "")) = none →
          (chatStep users reqs msgs registry meId meName meConn frame now
            appendOk).events
          = [Event.systemNotice meConn
              (Notice.userOffline (pyStrip (frame.toF.getD ""))),
             Event.appendMsg m]))
    ∧ (appendOk = false →
      (chatStep users reqs msgs registry meId meName meConn frame now
          appendOk).messages = msgs
      ∧ ∀ c fn tx, Event.chatFrame c fn tx
          ∉ (chatStep users reqs msgs registry meId meName meConn frame now
              appendOk).events) := by
  have h23 : ¬(pyStrip (frame.toF.getD "") = ""
      ∨ pyStrip (frame.textF.getD "") = "") := not_or.mpr ⟨h2, h3⟩
  cases hr : registry (pyStrip (frame.toF.getD "")) with
  | none =>
    cases appendOk with
    | true =>
      have he : chatStep users reqs msgs registry meId meName meConn frame
          now true = ⟨[Event.systemNotice meConn
            (Notice.userOffline (pyStrip (frame.toF.getD ""))),
            Event.appendMsg ⟨nextMsgId msgs, meId, target.id, .text,
              pyStrip (frame.textF.getD ""), none, now⟩],
            msgs ++ [⟨nextMsgId msgs, meId, target.id, .text,
              pyStrip (frame.textF.getD ""), none, now⟩], false⟩ := by
        simp [chatStep, h1, h23, h4, h5, hr]
      refine ⟨fun _ => ⟨⟨nextMsgId msgs, meId, target.id, .text,
        pyStrip (frame.textF.getD ""), none, now⟩, ?_, ?_, fun _ => ?_⟩,
        fun hc => Bool.noConfusion hc⟩
      · rw [he]
      · rintro ⟨c, hc⟩
        exact Option.noConfusion hc
      · rw [he]
    | false =>
      have he : chatStep users reqs msgs registry meId meName meConn frame
          now false = ⟨[Event.systemNotice meConn
            (Notice.userOffline (pyStrip (frame.toF.getD "")))],
            msgs, true⟩ := by
        simp [chatStep, h1, h23, h4, h5, hr]
      refine ⟨fun hc => Bool.noConfusion hc, fun _ => ⟨?_, ?_⟩⟩
      · rw [he]
      · intro c fn tx hmem
        rw [he] at hmem
        simp at hmem
  | some targetConn =>
    cases appendOk with
    | true =>
      have he : chatStep users reqs msgs registry meId meName meConn frame
          now true = ⟨[Event.appendMsg ⟨nextMsgId msgs, meId, target.id,
            .text, pyStrip (frame.textF.getD ""), none, now⟩,
            Event.chatFrame targetConn meName (pyStrip (frame.textF.getD "")),
            Event.chatFrame meConn meName (pyStrip (frame.textF.getD ""))],
            msgs ++ [⟨nextMsgId msgs, meId, target.id, .text,
              pyStrip (frame.textF.getD ""), none, now⟩], false⟩ := by
        simp [chatStep, h1, h23, h4, h5, hr]
      refine ⟨fun _ => ⟨⟨nextMsgId msgs, meId, target.id, .text,
        pyStrip (frame.textF.getD ""), none, now⟩, ?_, fun _ => ?_,
        fun hn => Option.noConfusion hn⟩,
        fun hc => Bool.noConfusion hc⟩
      · rw [he]
      · rw [he]; rfl
    | false =>
      have he : chatStep users reqs msgs registry meId meName meConn frame
          now false = ⟨[], msgs, true⟩ := by
        simp [chatStep, h1, h23, h4, h5, hr]
      refine ⟨fun hc => Bool.noConfusion hc, fun _ => ⟨?_, ?_⟩⟩
      · rw [he]
      · intro c fn tx hmem
        rw [he] at hmem
        simp at hmem

/-- Witness for c2_store_exactly_once: alice messages her friend bob while
bob is offline and the append succeeds. -/
theorem c2_store_exactly_once_witness :
    (true = true → ∃ m : Message,
      (chatStep usersW reqsW [] regAliceOnly 1 "alice" 10 frameW 7
          true).messages = [] ++ [m]
      ∧ ((∃ c, regAliceOnly (pyStrip (frameW.toF.getD "")) = some c) →
          appendFirst (chatStep usersW reqsW [] regAliceOnly 1 "alice" 10
            frameW 7 true).events = true)
      ∧ (regAliceOnly (pyStrip (frameW.toF.getD "")) = none →
          (chatStep usersW reqsW [] regAliceOnly 1 "alice" 10 frameW 7
            true).events
          = [Event.systemNotice 10
              (Notice.userOffline (pyStrip (frameW.toF.getD ""))),
             Event.appendMsg m]))
    ∧ (true = false →
      (chatStep usersW reqsW [] regAliceOnly 1 "alice" 10 frameW 7
          true).messages = []
      ∧ ∀ c fn tx, Event.chatFrame c fn tx
          ∉ (chatStep usersW reqsW [] regAliceOnly 1 "alice" 10 frameW 7
              true).events) :=
  c2_store_exactly_once usersW reqsW [] regAliceOnly 1 "alice" 10 frameW 7
    true ⟨2, "bob"⟩ (by decide) (by decide) (by decide) (by decide)
    (by decide)

/-- C9: every Message appended by the relay loop has kind text, a body
that is exactly the whitespace-stripped text field and is non-empty, the
sender as its from id, and a recipient resolved from the stripped to field
to an existing identity that is a friend of the sender at that moment. -/
theorem c9_appended_text_is_validated (users : List User)
    (reqs : List FriendRequest) (msgs : List Message) (registry : Registry)
    (meId : Nat) (meName : String) (meConn : Nat) (frame : InFrame)
    (now : Nat) (appendOk : Bool) (m : Message)
    (hmem : Event.appendMsg m
      ∈ (chatStep users reqs msgs registry meId meName meConn frame now
          appendOk).events) :
    m.kind = Kind.text
    ∧ m.text = pyStrip (frame.textF.getD "")
    ∧ m.text ≠ ""
    ∧ m.fromUser = meId
    ∧ ∃ target : User,
        get_user_by_username users (pyStrip (frame.toF.getD ""))
          = some target
        ∧ m.toUser = target.id
        ∧ are_friends reqs meId target.id = true := by
  by_cases h1 : frame.ftype = some "chat"
  case neg =>
    have he : chatStep users reqs msgs registry meId meName meConn frame now
        appendOk = ⟨[Event.systemNotice meConn Notice.unsupportedType],
          msgs, false⟩ := by
      simp [chatStep, h1]
    rw [he] at hmem
    simp at hmem
  case pos =>
  by_cases h2 : pyStrip (frame.toF.getD "") = ""
      ∨ pyStrip (frame.textF.getD "") = ""
  case pos =>
    have he : chatStep users reqs msgs registry meId meName meConn frame now
        appendOk = ⟨[Event.systemNotice meConn Notice.fieldsRequired],
          msgs, false⟩ := by
      simp [chatStep, h1, h2]
    rw [he] at hmem
    simp at hmem
  case neg =>
  have htext : pyStrip (frame.textF.getD "") ≠ "" := (not_or.mp h2).2
  cases hu : get_user_by_username users (pyStrip (frame.toF.getD "")) with
  | none =>
    have he : chatStep users reqs msgs registry meId meName meConn frame now
        appendOk = ⟨[Event.systemNotice meConn
          (Notice.userDoesNotExist (pyStrip (frame.toF.getD "")))],
          msgs, false⟩ := by
      simp [chatStep, h1, h2, hu]
    rw [he] at hmem
    simp at hmem
  | some target =>
    by_cases hf : are_friends reqs meId target.id
    case neg =>
      have he : chatStep users reqs msgs registry meId meName meConn frame
          now appendOk = ⟨[Event.systemNotice meConn
            (Notice.notFriends (pyStrip (frame.toF.getD "")))],
            msgs, false⟩ := by
        simp [chatStep, h1, h2, hu, hf]
      rw [he] at hmem
      simp at hmem
    case pos =>
    cases hr : registry (pyStrip (frame.toF.getD "")) with
    | none =>
      cases appendOk with
      | true =>
        have he : chatStep users reqs msgs registry meId meName meConn frame
            now true = ⟨[Event.systemNotice meConn
              (Notice.userOffline (pyStrip (frame.toF.getD ""))),
              Event.appendMsg ⟨nextMsgId msgs, meId, target.id, .text,
                pyStrip (frame.textF.getD ""), none, now⟩],
              msgs ++ [⟨nextMsgId msgs, meId, target.id, .text,
                pyStrip (frame.textF.getD ""), none, now⟩], false⟩ := by
          simp [chatStep, h1, h2, hu, hf, hr]
        rw [he] at hmem
        simp at hmem
        subst hmem
        exact ⟨rfl, rfl, htext, rfl, target, rfl, rfl, hf⟩
      | false =>
        have he : chatStep users reqs msgs registry meId meName meConn frame
            now false = ⟨[Event.systemNotice meConn
              (Notice.userOffline (pyStrip (frame.toF.getD "")))],
              msgs, true⟩ := by
          simp [chatStep, h1, h2, hu, hf, hr]
        rw [he] at hmem
        simp at hmem
    | some targetConn =>
      cases appendOk with
      | true =>
        have he : chatStep users reqs msgs registry meId meName meConn frame
            now true = ⟨[Event.appendMsg ⟨nextMsgId msgs, meId, target.id,
              .text, pyStrip (frame.textF.getD ""), none, now⟩,
              Event.chatFrame targetConn meName
                (pyStrip (frame.textF.getD "")),
              Event.chatFrame meConn meName
                (pyStrip (frame.textF.getD ""))],
              msgs ++ [⟨nextMsgId msgs, meId, target.id, .text,
                pyStrip (frame.textF.getD ""), none, now⟩], false⟩ := by
          simp [chatStep, h1, h2, hu, hf, hr]
        rw [he] at hmem
        simp at hmem
        subst hmem
        exact ⟨rfl, rfl, htext, rfl, target, rfl, rfl, hf⟩
      | false =>
        have he : chatStep users reqs msgs registry meId meName meConn frame
            now false = ⟨[], msgs, true⟩ := by
          simp [chatStep, h1, h2, hu, hf, hr]
        rw [he] at hmem
        simp at hmem

/-- Witness for c9_appended_text_is_validated: the message appended when
alice chats with bob online, with surrounding whitespace on the text. -/
theorem c9_appended_text_is_validated_witness :
    (⟨1, 1, 2, Kind.text, "hi", none, 7⟩ : Message).kind = Kind.text
    ∧ (⟨1, 1, 2, Kind.text, "hi", none, 7⟩ : Message).text
        = pyStrip ((InFrame.mk (some "chat") (some "bob")
            (some " hi ")).textF.getD "")
    ∧ (⟨1, 1, 2, Kind.text, "hi", none, 7⟩ : Message).text ≠ ""
    ∧ (⟨1, 1, 2, Kind.text, "hi", none, 7⟩ : Message).fromUser = 1
    ∧ ∃ target : User,
        get_user_by_username usersW
          (pyStrip ((InFrame.mk (some "chat") (some "bob")
            (some " hi ")).toF.getD "")) = some target
        ∧ (⟨1, 1, 2, Kind.text, "hi", none, 7⟩ : Message).toUser = target.id
        ∧ are_friends reqsW 1 target.id = true :=
  c9_appended_text_is_validated usersW reqsW [] regBoth 1 "alice" 10
    ⟨some "chat", some "bob", some " hi "⟩ 7 true
    ⟨1, 1, 2, Kind.text, "hi", none, 7⟩ (by decide)

/-!  Helper lemmas about the respond UPDATE.  -/

/-- applyRespond preserves the id column. -/
theorem applyRespond_id (requestId : Nat) (accept : Bool) (now : Nat)
    (q : FriendRequest) :
    (applyRespond requestId accept now q).id = q.id := by
  unfold applyRespond
  by_cases h : q.id = requestId <;> simp [h]

/-- applyRespond preserves the from_user_id column. -/
theorem applyRespond_fromUser (requestId : Nat) (accept : Bool) (now : Nat)
    (q : FriendRequest) :
    (applyRespond requestId accept now q).fromUser = q.fromUser := by
  unfold applyRespond
  by_cases h : q.id = requestId <;> simp [h]

/-- applyRespond preserves the to_user_id column. -/
theorem applyRespond_toUser (requestId : Nat) (accept : Bool) (now : Nat)
    (q : FriendRequest) :
    (applyRespond requestId accept now q).toUser = q.toUser := by
  unfold applyRespond
  by_cases h : q.id = requestId <;> simp [h]

/-- Lookup by id commutes with the respond UPDATE, which keeps ids. -/
theorem find_by_id_map_applyRespond (reqs : List FriendRequest)
    (i requestId : Nat) (accept : Bool) (now : Nat) :
    (reqs.map (applyRespond requestId accept now)).find?
        (fun q => q.id == i)
      = (reqs.find? (fun q => q.id == i)).map
          (applyRespond requestId accept now) := by
  induction reqs with
  | nil => rfl
  | cons x xs ih =>
    simp only [List.map_cons, List.find?, applyRespond_id]
    cases h : (x.id == i) with
    | true => simp
    | false => simp [ih]

/-- C4: respond fails with NotFound when no request with the id exists,
Forbidden when the responder is not the target, InvalidState when the
request is not pending; on success the row is accepted or rejected with
the responded time stamped, and afterwards every further respond by the
target fails with InvalidState and no respond call whatsoever succeeds,
so the request is mutated at most once. -/
theorem c4_respond_transition_once (reqs : List FriendRequest)
    (requestId toUserId : Nat) (accept : Bool) (now : Nat) :
    (reqs.find? (fun q => q.id == requestId) = none →
      respond_to_friend_request reqs requestId toUserId accept now
        = .error .notFound)
    ∧ (∀ r : FriendRequest, reqs.find? (fun q => q.id == requestId) = some r →
        r.toUser ≠ toUserId →
        respond_to_friend_request reqs requestId toUserId accept now
          = .error .forbidden)
    ∧ (∀ r : FriendRequest, reqs.find? (fun q => q.id == requestId) = some r →
        r.toUser = toUserId → r.status ≠ .pending →
        respond_to_friend_request reqs requestId toUserId accept now
          = .error .invalidState)
    ∧ (∀ r : FriendRequest, reqs.find? (fun q => q.id == requestId) = some r →
        r.toUser = toUserId → r.status = .pending →
        ∃ reqs2 : List FriendRequest,
          respond_to_friend_request reqs requestId toUserId accept now
            = .ok reqs2
          ∧ reqs2.find? (fun q => q.id == requestId)
              = some { r with
                  status := if accept then .accepted else .rejected,
                  respondedAt := some now }
          ∧ (∀ accept2 now2,
              respond_to_friend_request reqs2 requestId toUserId accept2 now2
                = .error .invalidState)
          ∧ (∀ u2 accept2 now2 reqs3,
              respond_to_friend_request reqs2 requestId u2 accept2 now2
                ≠ .ok reqs3)) := by
  refine ⟨?_, ?_, ?_, ?_⟩
  · intro hn
    unfold respond_to_friend_request
    rw [hn]
  · intro r hr hne
    unfold respond_to_friend_request
    rw [hr]
    simp [hne]
  · intro r hr hto hst
    unfold respond_to_friend_request
    rw [hr]
    simp [hto, hst]
  · intro r hr hto hst
    have hid : r.id = requestId := by
      have h2 := List.find?_some hr
      exact beq_iff_eq.mp h2
    have hfind2 : (reqs.map (applyRespond requestId accept now)).find?
        (fun q => q.id == requestId)
        = some { r with
            status := if accept then .accepted else .rejected,
            respondedAt := some now } := by
      rw [find_by_id_map_applyRespond, hr]
      show some (applyRespond requestId accept now r) = _
      unfold applyRespond
      rw [if_pos hid]
    refine ⟨reqs.map (applyRespond requestId accept now), ?_, hfind2, ?_, ?_⟩
    · unfold respond_to_friend_request
      rw [hr]
      simp [hto, hst]
    · intro accept2 now2
      unfold respond_to_friend_request
      rw [hfind2]
      dsimp only
      cases accept <;> simp [hto]
    · intro u2 accept2 now2 reqs3
      unfold respond_to_friend_request
      rw [hfind2]
      dsimp only
      by_cases hu2 : r.toUser ≠ u2
      · simp [hu2]
      · cases accept <;> simp [hu2]

/-- Witness for c4_respond_transition_once: bob accepts the pending
request from alice, and the request can no longer be responded to. -/
theorem c4_respond_transition_once_witness :
    ∃ reqs2 : List FriendRequest,
      respond_to_friend_request [⟨1, 1, 2, Status.pending, none⟩] 1 2 true 9
        = .ok reqs2
      ∧ reqs2.find? (fun q => q.id == 1)
          = some ⟨1, 1, 2, Status.accepted, some 9⟩
      ∧ (∀ accept2 now2,
          respond_to_friend_request reqs2 1 2 accept2 now2
            = .error .invalidState)
      ∧ (∀ u2 accept2 now2 reqs3,
          respond_to_friend_request reqs2 1 u2 accept2 now2 ≠ .ok reqs3) :=
  (c4_respond_transition_once [⟨1, 1, 2, Status.pending, none⟩] 1 2
    true 9).2.2.2 ⟨1, 1, 2, Status.pending, none⟩ (by decide) (by decide)
    (by decide)

/-- At most one friend_requests row per unordered pair of identities. -/
def atMostOnePerPair (reqs : List FriendRequest) : Prop :=
  reqs.Pairwise (fun r s => ¬ samePair s r.fromUser r.toUser)

/-- C3: when any row already exists for the unordered pair, in either
direction and with any status, create_friend_request fails with the
AlreadyRelated error carrying the existing status and inserts nothing;
and both create_friend_request and respond_to_friend_request preserve the
at-most-one-row-per-unordered-pair invariant, so it holds in every
reachable store. -/
theorem c3_at_most_one_request_per_pair (users : List User)
    (reqs : List FriendRequest) (a : Nat) (bn : String) :
    (∀ bu : User, get_user_by_username users bn = some bu → bu.id ≠ a →
      ∀ r ∈ reqs, samePair r a bu.id →
      ∃ st : Status, create_friend_request users reqs a bn
        = .error (.alreadyRelated st))
    ∧ (∀ reqs2 : List FriendRequest,
        create_friend_request users reqs a bn = .ok reqs2 →
        atMostOnePerPair reqs → atMostOnePerPair reqs2)
    ∧ (∀ i u acc t reqs2,
        respond_to_friend_request reqs i u acc t = .ok reqs2 →
        atMostOnePerPair reqs → atMostOnePerPair reqs2) := by
  refine ⟨?_, ?_, ?_⟩
  · intro bu hbu hne r hr hsp
    unfold create_friend_request
    rw [hbu]
    dsimp only
    rw [if_neg (fun hh => hne hh)]
    cases hfind : reqs.find? (fun q => decide (samePair q a bu.id)) with
    | none =>
      exfalso
      exact (List.find?_eq_none.mp hfind r hr) (decide_eq_true hsp)
    | some row => exact ⟨row.status, rfl⟩
  · intro reqs2 h hp
    unfold create_friend_request at h
    cases hbu : get_user_by_username users bn with
    | none => rw [hbu] at h; exact absurd h (by simp)
    | some target =>
      rw [hbu] at h
      dsimp only at h
      by_cases hself : target.id = a
      · rw [if_pos hself] at h
        exact absurd h (by simp)
      · rw [if_neg hself] at h
        cases hfind : reqs.find? (fun q => decide (samePair q a target.id)) with
        | some row =>
          rw [hfind] at h
          exact absurd h (by simp)
        | none =>
          rw [hfind] at h
          have h2 : reqs2 = reqs
              ++ [⟨nextReqId reqs, a, target.id, .pending, none⟩] := by
            have := Except.ok.injEq .. ▸ h
            exact this.symm
          subst h2
          rw [atMostOnePerPair, List.pairwise_append]
          refine ⟨hp, List.pairwise_singleton .., ?_⟩
          intro x hx y hy
          have hy2 : y = (⟨nextReqId reqs, a, target.id, .pending, none⟩ :
              FriendRequest) := List.mem_singleton.mp hy
          subst hy2
          intro hsp
          have hx2 : ¬ samePair x a target.id := by
            have hnd := List.find?_eq_none.mp hfind x hx
            intro hc
            exact hnd (decide_eq_true hc)
          apply hx2
          rcases hsp with ⟨hfa, hfb⟩ | ⟨hfa, hfb⟩
          · exact Or.inl ⟨hfa.symm, hfb.symm⟩
          · exact Or.inr ⟨hfb.symm, hfa.symm⟩
  · intro i u acc t reqs2 h hp
    unfold respond_to_friend_request at h
    cases hfind : reqs.find? (fun q => q.id == i) with
    | none => rw [hfind] at h; exact absurd h (by simp)
    | some row =>
      rw [hfind] at h
      dsimp only at h
      by_cases h1 : row.toUser ≠ u
      · rw [if_pos h1] at h; exact absurd h (by simp)
      · rw [if_neg h1] at h
        by_cases h2 : row.status ≠ Status.pending
        · rw [if_pos h2] at h; exact absurd h (by simp)
        · rw [if_neg h2] at h
          have h3 : reqs2 = reqs.map (applyRespond i acc t) := by
            have := Except.ok.injEq .. ▸ h
            exact this.symm
          subst h3
          rw [atMostOnePerPair, List.pairwise_map]
          apply hp.imp
          intro x y hxy hc
          apply hxy
          rcases hc with ⟨hfa, hfb⟩ | ⟨hfa, hfb⟩
          · simp only [applyRespond_fromUser, applyRespond_toUser]
              at hfa hfb
            exact Or.inl ⟨hfa, hfb⟩
          · simp only [applyRespond_fromUser, applyRespond_toUser]
              at hfa hfb
            exact Or.inr ⟨hfa, hfb⟩

/-- Witness for c3_at_most_one_request_per_pair: with an accepted request
already present between alice and bob, a new request from alice to bob is
rejected as AlreadyRelated. -/
theorem c3_at_most_one_request_per_pair_witness :
    ∃ st : Status,
      create_friend_request [⟨1, "alice"⟩, ⟨2, "bob"⟩]
        [⟨1, 2, 1, Status.accepted, some 4⟩] 1 "bob"
        = .error (.alreadyRelated st) :=
  (c3_at_most_one_request_per_pair [⟨1, "alice"⟩, ⟨2, "bob"⟩]
    [⟨1, 2, 1, Status.accepted, some 4⟩] 1 "bob").1
    ⟨2, "bob"⟩ (by decide) (by decide) ⟨1, 2, 1, Status.accepted, some 4⟩
    (by simp) (by decide)

/-- C5: are_friends is true exactly when an accepted row exists between
the two ids in either direction; it is symmetric; it is false while every
row for the pair is pending or rejected; and it becomes true immediately
after the target accepts a pending request for the pair. -/
theorem c5_are_friends_accepted_symmetric (reqs : List FriendRequest)
    (a b : Nat) :
    (are_friends reqs a b = true ↔
      ∃ r ∈ reqs, r.status = Status.accepted ∧ samePair r a b)
    ∧ are_friends reqs a b = are_friends reqs b a
    ∧ ((∀ r ∈ reqs, samePair r a b → r.status ≠ Status.accepted) →
        are_friends reqs a b = false)
    ∧ (∀ i now reqs2 (r : FriendRequest),
        reqs.find? (fun q => q.id == i) = some r →
        samePair r a b →
        respond_to_friend_request reqs i r.toUser true now = .ok reqs2 →
        are_friends reqs2 a b = true) := by
  have hchar : ∀ x y : Nat, (are_friends reqs x y = true ↔
      ∃ r ∈ reqs, r.status = Status.accepted ∧ samePair r x y) := by
    intro x y
    unfold are_friends
    rw [List.any_eq_true]
    constructor
    · rintro ⟨r, hr, hp⟩
      exact ⟨r, hr, of_decide_eq_true hp⟩
    · rintro ⟨r, hr, hp⟩
      exact ⟨r, hr, decide_eq_true hp⟩
  refine ⟨hchar a b, ?_, ?_, ?_⟩
  · rw [Bool.eq_iff_iff, hchar a b, hchar b a]
    constructor
    · rintro ⟨r, hr, hst, hsp⟩
      exact ⟨r, hr, hst, hsp.symm⟩
    · rintro ⟨r, hr, hst, hsp⟩
      exact ⟨r, hr, hst, hsp.symm⟩
  · intro hall
    cases hb : are_friends reqs a b with
    | false => rfl
    | true =>
      exfalso
      obtain ⟨r, hr, hst, hsp⟩ := (hchar a b).mp hb
      exact hall r hr hsp hst
  · intro i now reqs2 r hfind hsp hok
    unfold respond_to_friend_request at hok
    rw [hfind] at hok
    dsimp only at hok
    rw [if_neg (fun hh => hh rfl)] at hok
    by_cases h2 : r.status ≠ Status.pending
    · rw [if_pos h2] at hok
      exact absurd hok (by simp)
    · rw [if_neg h2] at hok
      have h3 : reqs2 = reqs.map (applyRespond i true now) := by
        have := Except.ok.injEq .. ▸ hok
        exact this.symm
      subst h3
      have hid : r.id = i := by
        have h4 := List.find?_some hfind
        exact beq_iff_eq.mp h4
      have hmem : r ∈ reqs := List.mem_of_find?_eq_some hfind
      unfold are_friends
      rw [List.any_eq_true]
      refine ⟨applyRespond i true now r, List.mem_map_of_mem _ hmem,
        decide_eq_true ⟨?_, ?_⟩⟩
      · unfold applyRespond
        rw [if_pos hid]
        rfl
      · rcases hsp with ⟨hx, hy⟩ | ⟨hx, hy⟩
        · exact Or.inl ⟨by rw [applyRespond_fromUser]; exact hx,
            by rw [applyRespond_toUser]; exact hy⟩
        · exact Or.inr ⟨by rw [applyRespond_fromUser]; exact hx,
            by rw [applyRespond_toUser]; exact hy⟩

/-- Witness for c5_are_friends_accepted_symmetric: after bob accepts the
pending request from alice, the two are friends. -/
theorem c5_are_friends_accepted_symmetric_witness :
    are_friends [⟨1, 1, 2, Status.accepted, some 9⟩] 1 2 = true :=
  (c5_are_friends_accepted_symmetric [⟨1, 1, 2, Status.pending, none⟩]
    1 2).2.2.2 1 9 [⟨1, 1, 2, Status.accepted, some 9⟩]
    ⟨1, 1, 2, Status.pending, none⟩ (by decide) (by decide) (by decide)

end WebChat
